import Mathlib

/-!
# Verification of the VANILLA arcade-collection backend

Shallow embedding of the leaderboard server (`vanilla_collection/server.py`)
and the procedural generators (`vanilla_collection/backends/*.py`).

Conventions of the embedding:
* Python numbers: `int` becomes `Int`; `float` becomes `Rat` (the generators use
  float arithmetic only through `+ - * / min max` and comparisons, which agree
  with exact rational arithmetic up to rounding; no claim here depends on
  binary64 rounding).
* Dynamically typed JSON payload values become the inductive `PyVal`.
* Fallible operations (Python exceptions) become `Option`/`Except`.
* `random.Random` is Python-stdlib code, not part of this repository; it is
  modelled as a deterministic seed→stream mapping (see `PRNG` below).  Every
  property proved below is independent of the concrete stream values.
-/

/-! ## Python value model -/

/-- A dynamically-typed Python/JSON scalar value, as received in request
payloads and passed to the validation helpers. -/
inductive PyVal where
  | none
  | bool (b : Bool)
  | int (n : Int)
  | float (q : Rat)
  | str (s : String)
deriving DecidableEq, Repr

/-- Python truthiness (`bool(v)`) for the scalar values of `PyVal`;
used by the `payload.get(k) or default` idiom. -/
def pyTruthy : PyVal → Bool
  | PyVal.none => false
  | PyVal.bool b => b
  | PyVal.int n => n != 0
  | PyVal.float q => q != 0
  | PyVal.str s => s != ""

/-- Characters stripped by Python's `str.strip()` (ASCII whitespace). -/
def isPySpace (c : Char) : Bool :=
  c = ' ' || c = '\t' || c = '\n' || c = '\r' || c.toNat = 11 || c.toNat = 12

/-- Python `str.strip()`: remove leading and trailing whitespace. -/
def pyStrip (s : String) : String :=
  String.mk (((s.toList.dropWhile isPySpace).reverse.dropWhile isPySpace).reverse)

/-- Python `str.lower()` restricted to ASCII letters (the only case the server
exercises: game and difficulty identifiers). -/
def pyLower (s : String) : String :=
  String.mk (s.toList.map fun c =>
    if 'A' ≤ c ∧ c ≤ 'Z' then Char.ofNat (c.toNat + 32) else c)

/-- Digits of a numeral to its value. -/
def digitsToNat (l : List Char) : Nat :=
  l.foldl (fun acc c => acc * 10 + (c.toNat - '0'.toNat)) 0

/-- Python `int(s)` on a string: optional surrounding whitespace, an optional
sign, then one or more ASCII digits; anything else raises `ValueError`. -/
def parseIntStr (s : String) : Option Int :=
  let l := (pyStrip s).toList
  let signRest : Int × List Char :=
    match l with
    | '-' :: r => (-1, r)
    | '+' :: r => (1, r)
    | r => (1, r)
  if signRest.2 ≠ [] ∧ signRest.2.all (·.isDigit) then
    some (signRest.1 * (digitsToNat signRest.2 : Int))
  else
    Option.none

/-- Truncation toward zero, the behaviour of Python `int()` on a float. -/
def ratTrunc (q : Rat) : Int :=
  if q < 0 then -(Rat.floor (-q)) else Rat.floor q

/-- Python `int(v)`: defined for bools, ints, floats (truncating toward zero)
and integer-literal strings; raises (`none`) otherwise. -/
def pyIntOfVal : PyVal → Option Int
  | PyVal.none => Option.none
  | PyVal.bool b => some (if b then 1 else 0)
  | PyVal.int n => some n
  | PyVal.float q => some (ratTrunc q)
  | PyVal.str s => parseIntStr s

/-- Value of a fractional digit string `d₁d₂…dₖ` as `0.d₁d₂…dₖ`. -/
def fracDigitsToRat (l : List Char) : Rat :=
  (digitsToNat l : Rat) / ((10 : Rat) ^ l.length)

/-- Python `float(s)` on a string, restricted to plain decimal literals
(optional sign, digits, optional point and fraction digits); anything else
raises `ValueError`. -/
def parseFloatStr (s : String) : Option Rat :=
  let l := (pyStrip s).toList
  let signRest : Rat × List Char :=
    match l with
    | '-' :: r => (-1, r)
    | '+' :: r => (1, r)
    | r => (1, r)
  let intPart := signRest.2.takeWhile (·.isDigit)
  let rest := signRest.2.dropWhile (·.isDigit)
  match rest with
  | [] =>
      if intPart ≠ [] then some (signRest.1 * (digitsToNat intPart : Rat)) else Option.none
  | '.' :: fracPart =>
      if fracPart.all (·.isDigit) ∧ (intPart ≠ [] ∨ fracPart ≠ []) then
        some (signRest.1 * ((digitsToNat intPart : Rat) + fracDigitsToRat fracPart))
      else Option.none
  | _ => Option.none

/-- Python `float(v)`: defined for bools, ints, floats and decimal-literal
strings; raises (`none`) otherwise (notably `float(None)` and `float("abc")`). -/
def pyFloatOfVal : PyVal → Option Rat
  | PyVal.none => Option.none
  | PyVal.bool b => some (if b then 1 else 0)
  | PyVal.int n => some (n : Rat)
  | PyVal.float q => some q
  | PyVal.str s => parseFloatStr s

/-- Decimal-free textual form of a rational, used only inside modelled seed
strings (a stand-in for Python's float `repr`; the seed hash below is itself a
model, so the exact spelling is immaterial to every claim proved here). -/
def ratStr (q : Rat) : String :=
  if q.den = 1 then toString q.num else toString q.num ++ "/" ++ toString q.den

/-- Python `str(v)`. -/
def pyStr : PyVal → String
  | PyVal.none => "None"
  | PyVal.bool b => if b then "True" else "False"
  | PyVal.int n => toString n
  | PyVal.float q => ratStr q
  | PyVal.str s => s

/-! ## Modelled seeded PRNG

`random.Random(seed_string)` is Python-stdlib code, not part of this
repository.  Modelled from the spec: "a pseudo-random generator seedable by an
arbitrary string, producing a reproducible sequence of floats/choices from that
seed".  We model the seed→stream mapping with a concrete integer hash; all
theorems below are independent of the particular stream values, relying only on
determinism and on the range bounds proved in `PRNG.random_nonneg` /
`PRNG.random_lt_one`. -/

/-- Modulus of the modelled generator (2³¹). -/
def RAND_M : Nat := 2147483648

/-- One mixing step of the modelled generator. -/
def randMix (n : Nat) : Nat := (n * 1103515245 + 12345) % RAND_M

/-- Modelled from the spec: hashing of the seed string. -/
def seedOfString (s : String) : Nat :=
  s.toList.foldl (fun h c => (h * 131 + c.toNat + 1) % RAND_M) 7

/-- State of the modelled seeded generator: the hashed seed plus the number of
primitive draws consumed so far.  A fresh instance is created per generator
call, so there is no cross-call state. -/
structure PRNG where
  seedHash : Nat
  idx : Nat
deriving DecidableEq, Repr

/-- `random.Random(seed)`. -/
def mkRandom (seed : String) : PRNG := ⟨seedOfString seed, 0⟩

/-- Raw integer value of the current draw, in `[0, RAND_M)`. -/
def PRNG.val (g : PRNG) : Nat :=
  randMix (randMix ((g.seedHash + 2654435761 * g.idx + 97) % RAND_M))

/-- Advance the stream by one draw. -/
def PRNG.next (g : PRNG) : PRNG := ⟨g.seedHash, g.idx + 1⟩

/-- `rng.random()`: a rational in `[0, 1)` plus the advanced state. -/
def PRNG.random (g : PRNG) : Rat × PRNG :=
  ((g.val : Rat) / (RAND_M : Rat), g.next)

/-- `rng.uniform(a, b) = a + (b - a) * rng.random()`. -/
def PRNG.uniform (g : PRNG) (a b : Rat) : Rat × PRNG :=
  let r := g.random
  (a + (b - a) * r.1, r.2)

/-- `rng._randbelow(n)`: an integer in `[0, n)` (for `n > 0`). -/
def PRNG.randbelow (g : PRNG) (n : Nat) : Nat × PRNG :=
  (g.val % n, g.next)

/-- `rng.randint(a, b)`: an integer in `[a, b]` inclusive. -/
def PRNG.randint (g : PRNG) (a b : Int) : Int × PRNG :=
  let k := g.randbelow (b - a + 1).toNat
  (a + (k.1 : Int), k.2)

/-- `rng.choice(l)`: the element at a stream-determined index.  Python raises
on an empty sequence; the embedding returns `d` there (the store's call sites
only reach `choice` with non-empty lists, see `PRNG.choice_mem`). -/
def PRNG.choice (g : PRNG) (l : List α) (d : α) : α × PRNG :=
  let k := g.randbelow l.length
  (l.getD k.1 d, k.2)

theorem PRNG.val_lt (g : PRNG) : g.val < RAND_M := by
  have h : 0 < RAND_M := by decide
  exact Nat.mod_lt _ h

theorem PRNG.random_nonneg (g : PRNG) : 0 ≤ g.random.1 := by
  unfold PRNG.random
  positivity

theorem PRNG.random_lt_one (g : PRNG) : g.random.1 < 1 := by
  unfold PRNG.random
  rw [div_lt_one (by norm_num [RAND_M])]
  exact_mod_cast g.val_lt

theorem PRNG.randbelow_lt (g : PRNG) (n : Nat) (h : 0 < n) : (g.randbelow n).1 < n :=
  Nat.mod_lt _ h

theorem PRNG.choice_mem (g : PRNG) (l : List α) (d : α) (h : l ≠ []) :
    (g.choice l d).1 ∈ l := by
  unfold PRNG.choice
  have hl : 0 < l.length := List.length_pos.mpr h
  have hk : (g.randbelow l.length).1 < l.length := g.randbelow_lt _ hl
  simp only [List.getD_eq_getElem?_getD, List.getElem?_eq_getElem hk, Option.getD_some]
  exact List.getElem_mem hk

/-! ## Server configuration and validation (`server.py`) -/

def MAX_PLAYER_NAME_LENGTH : Nat := 32
def MIN_PLAYER_NAME_LENGTH : Nat := 1
def MAX_SCORE_VALUE : Int := 999999999
def MIN_SCORE_VALUE : Int := 0

/-- `VALID_GAMES` (a Python `set` literal; only membership and its sorted join
are ever used). -/
def VALID_GAMES : List String :=
  ["snake", "pong", "breakout", "geometry_dash", "minesweeper",
   "space_shooters", "tetris", "flappy", "pacman", "asteroids"]

def VALID_DIFFICULTIES : List String := ["easy", "medium", "hard", "unknown"]

def MAX_ENTRIES : Nat := 15

def ASCENDING_GAMES : List String := ["minesweeper"]

/-- `sanitize_string(value, max_length)`: `None` becomes `""`; otherwise
`str(value)` is stripped, HTML-escaped (the five replacements of
`html.escape(s, quote=True)`, applied `&` first exactly as char-wise
expansion), control characters are removed and the result is truncated. -/
def htmlEscapeChar (c : Char) : List Char :=
  if c = '&' then "&amp;".toList
  else if c = '<' then "&lt;".toList
  else if c = '>' then "&gt;".toList
  else if c = '"' then "&quot;".toList
  else if c = '\'' then "&#x27;".toList
  else [c]

/-- Control characters removed by `sanitize_string`
(`[\x00-\x1f\x7f-\x9f]`). -/
def isCtrlChar (c : Char) : Bool :=
  c.toNat ≤ 0x1f || (0x7f ≤ c.toNat && c.toNat ≤ 0x9f)

def sanitize_string (value : PyVal) (maxLength : Nat) : String :=
  match value with
  | PyVal.none => ""
  | v =>
      let s := (pyStrip (pyStr v)).toList
      let escaped := (s.map htmlEscapeChar).flatten
      let cleaned := escaped.filter (fun c => !(isCtrlChar c))
      String.mk (cleaned.take maxLength)

/-- `validate_player_name(name)`. -/
def validate_player_name (name : String) : Bool × String :=
  if name = "" then (false, "Player name is required")
  else if name.length < MIN_PLAYER_NAME_LENGTH then
    (false, "Player name must be at least 1 character")
  else if name.length > MAX_PLAYER_NAME_LENGTH then
    (false, "Player name must be at most 32 characters")
  else if pyStrip name = "" then (false, "Player name cannot be only whitespace")
  else (true, "")

/-- `validate_game(game)` (the error message interpolates the sorted join of
`VALID_GAMES`). -/
def validate_game (game : String) : Bool × String :=
  if game = "" then (false, "Game name is required")
  else if game ∉ VALID_GAMES then
    (false, "Invalid game. Must be one of: asteroids, breakout, flappy, geometry_dash, minesweeper, pacman, pong, snake, space_shooters, tetris")
  else (true, "")

/-- `validate_difficulty(difficulty)`. -/
def validate_difficulty (difficulty : String) : Bool × String :=
  if difficulty ≠ "" ∧ difficulty ∉ VALID_DIFFICULTIES then
    (false, "Invalid difficulty. Must be one of: easy, hard, medium, unknown")
  else (true, "")

/-- `validate_score(score)`: try `int(score)`, then range-check against
`[MIN_SCORE_VALUE, MAX_SCORE_VALUE]`. -/
def validate_score (score : PyVal) : Bool × String × Int :=
  match pyIntOfVal score with
  | Option.none => (false, "Score must be a number", 0)
  | some n =>
      if n < MIN_SCORE_VALUE then (false, "Score must be at least 0", 0)
      else if n > MAX_SCORE_VALUE then (false, "Score must be at most 999999999", 0)
      else (true, "", n)

/-! ## Score store (`ScoreStore` in `server.py`) -/

/-- A stored leaderboard entry, as built by `ScoreStore.add_score`. -/
structure ScoreEntry where
  player : String
  score : Int
  difficulty : String
  timestamp : String
deriving DecidableEq, Repr

/-- The in-memory form of the scores file: game name → entry list
(a JSON object; insertion-ordered association list). -/
abbrev ScoresMap := List (String × List ScoreEntry)

/-- Dictionary read `data.get(game)`. -/
def mapGet : ScoresMap → String → Option (List ScoreEntry)
  | [], _ => Option.none
  | p :: t, g => if p.1 = g then some p.2 else mapGet t g

/-- Dictionary write `data[game] = l` (existing key keeps its position,
a new key is appended, as in a Python dict). -/
def mapSet : ScoresMap → String → List ScoreEntry → ScoresMap
  | [], g, l => [(g, l)]
  | p :: t, g, l => if p.1 = g then (g, l) :: t else p :: mapSet t g l

/-- Descending-by-score ordering used for every game not in
`ASCENDING_GAMES` (`sorted(..., key=score, reverse=True)`). -/
def scoreDesc (a b : ScoreEntry) : Prop := b.score ≤ a.score

/-- Ascending-by-score ordering used for the games in `ASCENDING_GAMES`. -/
def scoreAsc (a b : ScoreEntry) : Prop := a.score ≤ b.score

instance : DecidableRel scoreDesc := fun a b => inferInstanceAs (Decidable (b.score ≤ a.score))
instance : DecidableRel scoreAsc := fun a b => inferInstanceAs (Decidable (a.score ≤ b.score))
instance : IsTotal ScoreEntry scoreDesc := ⟨fun a b => le_total b.score a.score⟩
instance : IsTotal ScoreEntry scoreAsc := ⟨fun a b => le_total a.score b.score⟩
instance : IsTrans ScoreEntry scoreDesc := ⟨fun _ _ _ hab hbc => le_trans hbc hab⟩
instance : IsTrans ScoreEntry scoreAsc := ⟨fun _ _ _ hab hbc => le_trans hab hbc⟩

/-- `ScoreStore.add_score(game, player, score, difficulty)`.  The in-memory
read-modify-write under the store lock; `now` stands for
`datetime.now(timezone.utc).isoformat()`.  The Python
`isinstance(score, (int, float))` guard cannot fail in the typed embedding
(`score : Int`); the player guard is kept verbatim. -/
def ScoreStore_add_score (data : ScoresMap) (game player : String) (score : Int)
    (difficulty now : String) : Except String (ScoresMap × ScoreEntry) :=
  if player = "" ∨ pyStrip player = "" then Except.error "Player name is required"
  else
    let entry : ScoreEntry :=
      ⟨pyStrip player, score, if difficulty = "" then "unknown" else difficulty, now⟩
    let current := (mapGet data game).getD []
    let sorted :=
      if game ∉ ASCENDING_GAMES then List.insertionSort scoreDesc (current ++ [entry])
      else List.insertionSort scoreAsc (current ++ [entry])
    Except.ok (mapSet data game (sorted.take MAX_ENTRIES), entry)

/-! ## On-disk state and corruption recovery (`ScoreStore._read`) -/

/-- A JSON document (the parse result of the scores file). -/
inductive Json where
  | null
  | bool (b : Bool)
  | num (q : Rat)
  | str (s : String)
  | arr (xs : List Json)
  | obj (fields : List (String × Json))

/-- The three states the backing file can be in: absent (open raises
`FileNotFoundError`), present but not valid JSON (`json.load` raises), or
parsed to a document. -/
inductive FileState where
  | missing
  | invalid (raw : String)
  | parsed (j : Json)

/-- `DEFAULT_SCORES = {game: [] for game in VALID_GAMES}` as a JSON object. -/
def DEFAULT_SCORES : Json := Json.obj (VALID_GAMES.map fun g => (g, Json.arr []))

/-- `isinstance(payload, dict)`. -/
def isJsonObj : Json → Bool
  | Json.obj _ => true
  | _ => false

/-- `ScoreStore._read()`: returns the parsed object when the file holds a JSON
object; on any exception (missing file, parse failure, or the explicit
`ValueError` for a non-object top level) it rewrites the file with
`DEFAULT_SCORES` and returns that default.  The embedding returns the new file
state together with the value; it is total, so no exception propagates. -/
def ScoreStore_read : FileState → FileState × Json
  | FileState.parsed (Json.obj fields) => (FileState.parsed (Json.obj fields), Json.obj fields)
  | _ => (FileState.parsed DEFAULT_SCORES, DEFAULT_SCORES)

/-- A corrupt backing-file state: missing, unparseable, or a JSON document
whose top level is not an object. -/
def corruptFile : FileState → Prop
  | FileState.missing => True
  | FileState.invalid _ => True
  | FileState.parsed j => isJsonObj j = false

/-! ## Rate limiter (`RateLimiter` in `server.py`) -/

def RATE_LIMIT_WINDOW : Nat := 60
def RATE_LIMIT_MAX_REQUESTS : Nat := 30
def RATE_LIMIT_MAX_REQUESTS_READ : Nat := 100

/-- `RateLimiter._cleanup_old_requests`: keep only the timestamps strictly
newer than `now - window`.  Timestamps are modelled as exact rationals. -/
def cleanup_old_requests (now window : Rat) (ts : List Rat) : List Rat :=
  ts.filter (fun t => decide (now - window < t))

/-- `RateLimiter.is_allowed(max_requests, window)` for one client: prune, count,
reject with `remaining = 0` (leaving the pruned list unchanged) when the count
is at or above the maximum, otherwise record `now` and accept.  Returns
`(allowed, remaining, stored timestamps)`. -/
def RateLimiter_is_allowed (now : Rat) (maxRequests : Nat) (window : Rat)
    (ts : List Rat) : Bool × Nat × List Rat :=
  let pruned := cleanup_old_requests now window ts
  if maxRequests ≤ pruned.length then (false, 0, pruned)
  else (true, maxRequests - pruned.length - 1, pruned ++ [now])

/-- Python `min(list)` on a non-empty list (the call site guards emptiness). -/
def pyMin : List Rat → Rat
  | [] => 0
  | h :: t => t.foldl min h

/-- `RateLimiter.get_retry_after(window)`:
`max(0, int(window - (now - oldest)))`, `0` for an empty record. -/
def RateLimiter_get_retry_after (now window : Rat) (ts : List Rat) : Int :=
  match ts with
  | [] => 0
  | h :: t => max 0 (ratTrunc (window - (now - (t.foldl min h))))

/-! ## Snake backend (`backends/snake.py`) -/

/-- A grid cell `(x, y)`.  The claims quantify over snake bodies as integer
cell lists; `_segment_xy`'s normalization of raw JSON segments to integer
pairs is the identity on this domain. -/
abbrev Cell := Int × Int

/-- `_occupied(snake)`: the set of occupied cells, modelled as a
duplicate-free list (membership and cardinality agree with Python's `set`). -/
def _occupied (snake : List Cell) : List Cell := snake.dedup

/-- The four orthogonal offsets, in the source's iteration order. -/
def orthoDirs : List Cell := [(0, 1), (0, -1), (1, 0), (-1, 0)]

/-- One iteration of `_flood_fill`'s inner neighbour loop: mark the neighbour
visited when it is new and in bounds, and enqueue it when moreover not
blocked.  The accumulator is `(visited, queue)`. -/
def floodStep (blocked : List Cell) (grid : Nat) (x y : Int)
    (vq : List Cell × List Cell) (d : Cell) : List Cell × List Cell :=
  let n : Cell := (x + d.1, y + d.2)
  if n ∉ vq.1 ∧ 0 ≤ n.1 ∧ n.1 < (grid : Int) ∧ 0 ≤ n.2 ∧ n.2 < (grid : Int) then
    (n :: vq.1, if n ∈ blocked then vq.2 else vq.2 ++ [n])
  else vq

/-- The BFS loop of `_flood_fill`, with an explicit fuel argument.  Every
enqueued cell is distinct, in bounds and marked visited at enqueue time, so
`|queue| + |in-bounds cells not yet visited|` strictly decreases with each
iteration; the initial fuel `grid² + 1` in `_flood_fill` therefore is never
exhausted (the `0` branch is unreachable from `_flood_fill`). -/
def floodFillLoop (blocked : List Cell) (grid : Nat) :
    Nat → List Cell → List Cell → List Cell → List Cell
  | 0, _, _, reachable => reachable
  | _ + 1, [], _, reachable => reachable
  | fuel + 1, (x, y) :: queue, visited, reachable =>
      if (x, y) ∈ blocked then floodFillLoop blocked grid fuel queue visited reachable
      else if x < 0 ∨ (grid : Int) ≤ x ∨ y < 0 ∨ (grid : Int) ≤ y then
        floodFillLoop blocked grid fuel queue visited reachable
      else
        let vq := orthoDirs.foldl (floodStep blocked grid x y) (visited, queue)
        floodFillLoop blocked grid fuel vq.2 vq.1 ((x, y) :: reachable)

/-- `_flood_fill(start, blocked, grid)`: all cells reachable from `start`
(4-directional BFS over cells not in `blocked`, restricted to the grid),
as a duplicate-free list standing for the returned set. -/
def _flood_fill (start : Cell) (blocked : List Cell) (grid : Nat) : List Cell :=
  floodFillLoop blocked grid (grid * grid + 1) [start] [start] []

/-- The eight "open space around" offsets of `_get_safe_score`. -/
def spreadDirs : List Cell :=
  [(0, 2), (0, -2), (2, 0), (-2, 0), (1, 1), (1, -1), (-1, 1), (-1, -1)]

/-- Is the cell inside the grid and not occupied? -/
def openAt (snakeSet : List Cell) (grid : Nat) (c : Cell) : Bool :=
  decide (0 ≤ c.1 ∧ c.1 < (grid : Int) ∧ 0 ≤ c.2 ∧ c.2 < (grid : Int) ∧ c ∉ snakeSet)

/-- `_get_safe_score(pos, snake_set, grid)`: open orthogonal neighbours count,
plus the clamped distance-to-edge bonus, plus half a point per open cell at
the knight/diagonal offsets; returned as `int(score * 10)`. -/
def _get_safe_score (pos : Cell) (snakeSet : List Cell) (grid : Nat) : Int :=
  let x := pos.1
  let y := pos.2
  let openCount : Rat :=
    ((orthoDirs.filter (fun d => openAt snakeSet grid (x + d.1, y + d.2))).length : Nat)
  let edge_dist : Int := min (min x y) (min ((grid : Int) - 1 - x) ((grid : Int) - 1 - y))
  let spread : Rat :=
    ((spreadDirs.filter (fun d => openAt snakeSet grid (x + d.1, y + d.2))).length : Nat)
  ratTrunc ((openCount + (min edge_dist 3 : Int) + spread * (1 / 2)) * 10)

/-- The snake's head cell (`snake[0]`, or the grid centre for an empty body). -/
def snakeHead (grid : Nat) (snake : List Cell) : Cell :=
  match snake with
  | [] => ((grid : Int) / 2, (grid : Int) / 2)
  | s :: _ => s

/-- `open_spaces`: every grid cell not occupied, in the source's
x-major iteration order. -/
def openSpaces (grid : Nat) (taken : List Cell) : List Cell :=
  ((List.range grid).flatMap
      (fun x => (List.range grid).map (fun y => ((x : Int), (y : Int))))).filter
    (fun p => decide (p ∉ taken))

/-- `reachable_spaces`: the open cells that are in the flood-fill reachable set
computed from the head, with the body minus the head as blocked cells. -/
def reachableSpaces (grid : Nat) (snake : List Cell) : List Cell :=
  let taken := _occupied snake
  let head := snakeHead grid snake
  let reachable := _flood_fill head (taken.filter (fun c => decide (c ≠ head))) grid
  (openSpaces grid taken).filter (fun p => decide (p ∈ reachable))

/-- Ordering used for `scored_positions.sort(key=lambda p: p[1], reverse=True)`. -/
def scoredDesc (a b : Cell × Int) : Prop := b.2 ≤ a.2

instance : DecidableRel scoredDesc := fun a b => inferInstanceAs (Decidable (b.2 ≤ a.2))
instance : IsTotal (Cell × Int) scoredDesc := ⟨fun a b => le_total b.2 a.2⟩
instance : IsTrans (Cell × Int) scoredDesc := ⟨fun _ _ _ hab hbc => le_trans hbc hab⟩

/-- `next_food(grid, snake)`: the returned `{"x": x, "y": y}` dict, as a cell. -/
def next_food (grid : Nat) (snake : List Cell) : Cell :=
  let taken := _occupied snake
  let head_pos := snakeHead grid snake
  let open_spaces := openSpaces grid taken
  if open_spaces = [] then (0, 0)
  else if snake.length < 5 then
    let rng := mkRandom ("snake-" ++ toString grid ++ "-" ++ toString taken.length)
    (rng.choice open_spaces (0, 0)).1
  else
    let reachable_spaces := reachableSpaces grid snake
    if reachable_spaces = [] then
      let rng := mkRandom ("snake-" ++ toString grid ++ "-" ++ toString taken.length ++ "-fallback")
      (rng.choice open_spaces (0, 0)).1
    else
      let scored_positions := reachable_spaces.map (fun p => (p, _get_safe_score p taken grid))
      let sorted := List.insertionSort scoredDesc scored_positions
      let top_count := max 1 (sorted.length / 3)
      let top_positions := (sorted.take top_count).map (·.1)
      let rng := mkRandom ("snake-smart-" ++ toString grid ++ "-" ++ toString taken.length
        ++ "-(" ++ toString head_pos.1 ++ ", " ++ toString head_pos.2 ++ ")")
      (rng.choice top_positions (0, 0)).1

/-! ## Minesweeper backend (`backends/minesweeper.py`) -/

/-- Modelled from the spec: `random.Random.shuffle` (Python stdlib, not part of
this repository) applies a seed-determined permutation in place; modelled as a
seeded selection shuffle.  Only the permutation property
(`pyShuffle_perm`) is used by any theorem. -/
def pyShuffle (g : PRNG) : List α → List α
  | [] => []
  | a :: l =>
      let k := g.randbelow (a :: l).length
      (a :: l).getD k.1 a :: pyShuffle k.2 ((a :: l).eraseIdx k.1)
termination_by l => l.length
decreasing_by
  have hk : (g.randbelow (l.length + 1)).1 < l.length + 1 :=
    g.randbelow_lt _ (Nat.succ_pos _)
  simp only [List.length_cons, List.length_eraseIdx, if_pos hk]
  omega

/-- The 3×3 `safe_zone` around the first-clicked cell. -/
def safeZone (safe : Cell) : List Cell :=
  ([-1, 0, 1] : List Int).flatMap
    (fun dr => ([-1, 0, 1] : List Int).map (fun dc => (safe.1 + dr, safe.2 + dc)))

/-- The candidate mine positions: every grid cell outside the safe zone, in
the source's row-major iteration order. -/
def minePositions (rows cols : Nat) (safe : Cell) : List Cell :=
  ((List.range rows).flatMap
      (fun r => (List.range cols).map (fun c => ((r : Int), (c : Int))))).filter
    (fun p => decide (p ∉ safeZone safe))

/-- Result of `generate_board`: the mine list plus the neighbour-count grid. -/
structure MineBoard where
  mines : List Cell
  counts : List (List Nat)
deriving DecidableEq, Repr

/-- `generate_board(rows, cols, mines, safe)`.  `mines : Nat` mirrors the
claim's `mines ≥ 0` domain.  The `counts` grid is expressed by counting, per
cell, the chosen mines adjacent to it — the same matrix the source builds by
incrementing `counts[nr][nc]` over every mine's neighbourhood. -/
def generate_board (rows cols : Nat) (mines : Nat) (safe : Cell) : MineBoard :=
  let rng := mkRandom ("mines-" ++ toString rows ++ "-" ++ toString cols ++ "-"
    ++ toString mines ++ "-(" ++ toString safe.1 ++ ", " ++ toString safe.2 ++ ")")
  let positions := minePositions rows cols safe
  let shuffled := pyShuffle rng positions
  let chosen := shuffled.take (min positions.length mines)
  let counts := (List.range rows).map (fun r => (List.range cols).map (fun c =>
    (chosen.filter (fun m => decide (m ≠ ((r : Int), (c : Int))
      ∧ (m.1 - (r : Int)).natAbs ≤ 1 ∧ (m.2 - (c : Int)).natAbs ≤ 1))).length))
  ⟨chosen, counts⟩

/-! ## Weighted pattern selection (`backends/geometry_dash.py`, `_weighted_choice`) -/

/-- The subtraction walk of `_weighted_choice`: subtract each weight in table
order and return the first key at which the remainder is ≤ 0; `none` when the
walk falls off the end (then the source returns `items[-1][0]`). -/
def weightedWalk : Rat → List (String × Rat) → Option String
  | _, [] => Option.none
  | pick, (k, w) :: rest =>
      let pick' := pick - w
      if pick' ≤ 0 then some k else weightedWalk pick' rest

/-- `_weighted_choice(rng, weights)`: clamp negative weights to 0, draw one
uniform value in `[0, total)`, and walk the table.  Total weight 0 falls back
to a uniform choice among the keys, and an empty table to `"platform_run"`
(without consuming the stream, as in the source's conditional expression). -/
def _weighted_choice (g : PRNG) (weights : List (String × Rat)) : String × PRNG :=
  let items := weights.map (fun kw => (kw.1, max 0 kw.2))
  let total := (items.map (·.2)).sum
  if total ≤ 0 then
    match items with
    | [] => ("platform_run", g)
    | _ :: _ => g.choice (items.map (·.1)) "platform_run"
  else
    let r := g.random
    let pick := r.1 * total
    (match weightedWalk pick items with
     | some k => k
     | Option.none => (items.getLastD ("platform_run", 0)).1, r.2)

/-! ## Geometry Dash backend (`backends/geometry_dash.py`) -/

/-- The frozen `Obstacle` dataclass. -/
structure Obstacle where
  type : String
  x : Rat
  y : Rat
  w : Rat
  h : Rat
  rotation : Rat
  speed : Rat
  kind : Option String
  color : Option String
  id : Option Int
deriving DecidableEq, Repr

/-- One entry of `DIFFICULTY_CONFIG`. -/
structure DashConfig where
  density : Rat
  complexity : Rat
  portal_rate : Rat
  orb_rate : Rat
  saw_rate : Rat
  platform_rate : Rat
  spike_max : Rat
  bpm : Rat
deriving DecidableEq, Repr

/-- `DIFFICULTY_CONFIG.get(difficulty, DIFFICULTY_CONFIG["medium"])`. -/
def dashConfigFor : String → DashConfig
  | "easy" => ⟨0.65, 0.60, 0.08, 0.35, 0.08, 0.45, 2, 110⟩
  | "medium" => ⟨0.78, 0.85, 0.12, 0.32, 0.14, 0.38, 3, 124⟩
  | "hard" => ⟨0.92, 1.05, 0.16, 0.28, 0.20, 0.32, 3, 138⟩
  | "insane" => ⟨1.05, 1.20, 0.20, 0.25, 0.26, 0.28, 4, 152⟩
  | _ => ⟨0.78, 0.85, 0.12, 0.32, 0.14, 0.38, 3, 124⟩

/-- The `THEMES` palette table, in source (insertion) order. -/
def THEMES : List (String × List (String × String)) :=
  [("neon", [("bg0", "#070a18"), ("bg1", "#0b1230"), ("accent", "#6ee7ff"),
      ("accent2", "#c084fc"), ("good", "#9de8c7"), ("danger", "#fb7185"),
      ("gold", "#fcd34d")]),
   ("cosmic", [("bg0", "#030615"), ("bg1", "#0b1d4d"), ("accent", "#93c5fd"),
      ("accent2", "#a78bfa"), ("good", "#67e8f9"), ("danger", "#f472b6"),
      ("gold", "#fde047")]),
   ("retro", [("bg0", "#0a0f27"), ("bg1", "#221043"), ("accent", "#34d399"),
      ("accent2", "#f59e0b"), ("good", "#22c55e"), ("danger", "#ef4444"),
      ("gold", "#eab308")]),
   ("ice", [("bg0", "#06121d"), ("bg1", "#04334f"), ("accent", "#7dd3fc"),
      ("accent2", "#a5b4fc"), ("good", "#99f6e4"), ("danger", "#fb7185"),
      ("gold", "#fcd34d")]),
   ("fire", [("bg0", "#160a0a"), ("bg1", "#3a0a0a"), ("accent", "#f97316"),
      ("accent2", "#fb7185"), ("good", "#fcd34d"), ("danger", "#ef4444"),
      ("gold", "#fbbf24")])]

/-- `_clamp(value, lo, hi) = max(lo, min(hi, value))`. -/
def _clamp (value lo hi : Rat) : Rat := max lo (min hi value)

/-- The immutable part of a `DashGenerator` (everything `__init__` derives
from its arguments). -/
structure DashCtx where
  config : DashConfig
  ground_y : Rat
  width : Rat
  distance : Rat
  ceiling_y : Rat
  safe_top : Rat
  safe_bottom : Rat
  base_x : Rat
  id_base : Int
deriving Repr

/-- The mutable part of a `DashGenerator`: its rng and the `_local_id`
counter. -/
structure DashState where
  rng : PRNG
  local_id : Nat
deriving Repr

/-- `DashGenerator.__init__` (minus the rng, which starts as
`random.Random(seed)` with `_local_id = 0`). -/
def mkDashCtx (difficulty : String) (ground_y width distance : Rat) : DashCtx :=
  let config := dashConfigFor difficulty
  let height_est := ground_y + 72
  let ceiling_y := _clamp (height_est * 0.12) 50 80
  let chunk := Rat.floor (distance / 150)
  { config := config, ground_y := ground_y, width := width, distance := distance,
    ceiling_y := ceiling_y, safe_top := ceiling_y + 100, safe_bottom := ground_y - 60,
    base_x := width + 100, id_base := chunk * 1000 }

/-- `rng.random()` threaded through the generator state. -/
def DashState.random (st : DashState) : Rat × DashState :=
  let r := st.rng.random
  (r.1, ⟨r.2, st.local_id⟩)

/-- `rng.randint(a, b)` threaded through the generator state. -/
def DashState.randint (st : DashState) (a b : Int) : Int × DashState :=
  let r := st.rng.randint a b
  (r.1, ⟨r.2, st.local_id⟩)

/-- `self._id()`. -/
def DashCtx.nextId (ctx : DashCtx) (st : DashState) : Int × DashState :=
  (ctx.id_base + ((st.local_id : Int) + 1), ⟨st.rng, st.local_id + 1⟩)

/-- `self.spike(x, variant)`. -/
def DashCtx.spike (ctx : DashCtx) (st : DashState) (x : Rat) (variant : String) :
    Obstacle × DashState :=
  let y := if variant = "down" then ctx.ceiling_y + 30 else ctx.ground_y - 48
  let i := ctx.nextId st
  (⟨"spike", x, y, 32, 48, 0, 0, some variant, Option.none, some i.1⟩, i.2)

/-- `self.block(x, w, h)`. -/
def DashCtx.block (ctx : DashCtx) (st : DashState) (x w h : Rat) : Obstacle × DashState :=
  let i := ctx.nextId st
  (⟨"block", x, ctx.ground_y - h, w, h, 0, 0, Option.none, Option.none, some i.1⟩, i.2)

/-- `self.platform(x, w, y)` (`y = None` for the default). -/
def DashCtx.platform (ctx : DashCtx) (st : DashState) (x w : Rat) (y : Option Rat) :
    Obstacle × DashState :=
  let y_val := y.getD (ctx.ground_y - 140)
  let y_val := _clamp y_val ctx.safe_top (ctx.ground_y - 100)
  let i := ctx.nextId st
  (⟨"platform", x, y_val, w, 18, 0, 0, Option.none, Option.none, some i.1⟩, i.2)

/-- `self.saw(x, y, size)` (the `speed` draw is consumed before `_id()`, as in
the source's argument order). -/
def DashCtx.saw (ctx : DashCtx) (st : DashState) (x : Rat) (y : Option Rat) (size : Rat) :
    Obstacle × DashState :=
  let y_val := y.getD (ctx.ground_y - 120)
  let y_val := _clamp y_val (ctx.safe_top + 20) (ctx.ground_y - size - 40)
  let r := st.random
  let i := ctx.nextId r.2
  (⟨"sawblade", x, y_val, size, size, 0, 3.5 + r.1 * 1.0, Option.none, Option.none,
    some i.1⟩, i.2)

/-- `self.orb(x, y)`. -/
def DashCtx.orb (ctx : DashCtx) (st : DashState) (x : Rat) (y : Option Rat) :
    Obstacle × DashState :=
  let y_val := y.getD (ctx.ground_y - 180)
  let y_val := _clamp y_val (ctx.safe_top + 30) (ctx.ground_y - 100)
  let i := ctx.nextId st
  (⟨"orb", x, y_val, 28, 28, 0, 0, some "jump", Option.none, some i.1⟩, i.2)

/-- `self.portal(x, kind)`. -/
def DashCtx.portal (ctx : DashCtx) (st : DashState) (x : Rat) (kind : String) :
    Obstacle × DashState :=
  let y := ctx.ceiling_y + 60
  let h := max 100 ((ctx.ground_y - ctx.ceiling_y) - 120)
  let i := ctx.nextId st
  (⟨"portal", x, y, 48, h, 0, 0, some kind, some kind, some i.1⟩, i.2)

/-- `self.pad(x)`. -/
def DashCtx.pad (ctx : DashCtx) (st : DashState) (x : Rat) : Obstacle × DashState :=
  let i := ctx.nextId st
  (⟨"pad", x, ctx.ground_y - 20, 60, 20, 0, 0, some "jump", Option.none, some i.1⟩, i.2)

/-- `self.finish_line(x)`. -/
def DashCtx.finish_line (ctx : DashCtx) (st : DashState) (x : Rat) : Obstacle × DashState :=
  let i := ctx.nextId st
  (⟨"finish", x, ctx.ceiling_y, 20, ctx.ground_y - ctx.ceiling_y, 0, 0, some "finish",
    Option.none, some i.1⟩, i.2)

/-- `pattern_platform_run`: three platforms with optional orbs. -/
def DashCtx.pattern_platform_run (ctx : DashCtx) (st : DashState) :
    List Obstacle × Rat × DashState :=
  let fin := (List.range 3).foldl (fun acc i =>
    let (obs, cursor, s0) := acc
    let y_offset := ctx.ground_y - 130 - (i : Rat) * 30
    let (pl, s1) := ctx.platform s0 cursor 130 (some y_offset)
    let (r, s2) := s1.random
    let (obs, s3) :=
      if r < 0.6 then
        let o := ctx.orb s2 (cursor + 50) (some (y_offset - 60))
        (obs ++ [pl, o.1], o.2)
      else (obs ++ [pl], s2)
    let (r2, s4) := s3.random
    (obs, cursor + 180 + r2 * 40, s4)) (([] : List Obstacle), ctx.base_x, st)
  (fin.1, fin.2.1 - ctx.width, fin.2.2)

/-- `pattern_single_spike`: `randint(1, spike_max)` single spikes with gaps. -/
def DashCtx.pattern_single_spike (ctx : DashCtx) (st : DashState) :
    List Obstacle × Rat × DashState :=
  let (n, s0) := st.randint 1 (ratTrunc ctx.config.spike_max)
  let fin := (List.range n.toNat).foldl (fun acc _ =>
    let (obs, cursor, s1) := acc
    let (sp, s2) := ctx.spike s1 cursor "up"
    let (r, s3) := s2.random
    (obs ++ [sp], cursor + 120 + r * 60, s3)) (([] : List Obstacle), ctx.base_x, s0)
  (fin.1, fin.2.1 - ctx.width, fin.2.2)

/-- `pattern_spike_gap`: two spikes with an orb to help. -/
def DashCtx.pattern_spike_gap (ctx : DashCtx) (st : DashState) :
    List Obstacle × Rat × DashState :=
  let cursor := ctx.base_x
  let (s1ob, s1) := ctx.spike st cursor "up"
  let cursor := cursor + 80
  let (o, s2) := ctx.orb s1 (cursor + 30) (some (ctx.ground_y - 170))
  let cursor := cursor + 100
  let (s2ob, s3) := ctx.spike s2 cursor "up"
  let cursor := cursor + 140
  ([s1ob, o, s2ob], cursor - ctx.width, s3)

/-- `pattern_block_hop`: two blocks with safe landings. -/
def DashCtx.pattern_block_hop (ctx : DashCtx) (st : DashState) :
    List Obstacle × Rat × DashState :=
  let cursor := ctx.base_x
  let (b1, s1) := ctx.block st cursor 70 55
  let cursor := cursor + 160 + 80
  let (b2, s2) := ctx.block s1 cursor 65 50
  let cursor := cursor + 180
  ([b1, b2], cursor - ctx.width, s2)

/-- `pattern_orb_chain`: orbs guiding through a spike/platform section. -/
def DashCtx.pattern_orb_chain (ctx : DashCtx) (st : DashState) :
    List Obstacle × Rat × DashState :=
  let cursor := ctx.base_x
  let (sp1, s1) := ctx.spike st cursor "up"
  let (o1, s2) := ctx.orb s1 (cursor + 60) (some (ctx.ground_y - 180))
  let cursor := cursor + 130
  let (pl, s3) := ctx.platform s2 cursor 120 (some (ctx.ground_y - 160))
  let (o2, s4) := ctx.orb s3 (cursor + 50) (some (ctx.ground_y - 220))
  let cursor := cursor + 180
  let (sp2, s5) := ctx.spike s4 cursor "up"
  let cursor := cursor + 150
  ([sp1, o1, pl, o2, sp2], cursor - ctx.width, s5)

/-- `pattern_platform_jump`: platform sequence at two heights. -/
def DashCtx.pattern_platform_jump (ctx : DashCtx) (st : DashState) :
    List Obstacle × Rat × DashState :=
  let cursor := ctx.base_x
  let y1 := ctx.ground_y - 140
  let y2 := ctx.ground_y - 180
  let (p1, s1) := ctx.platform st cursor 140 (some y1)
  let cursor := cursor + 170
  let (p2, s2) := ctx.platform s1 cursor 120 (some y2)
  let (o, s3) := ctx.orb s2 (cursor + 50) (some (y2 - 55))
  let cursor := cursor + 160
  let (p3, s4) := ctx.platform s3 cursor 130 (some y1)
  let cursor := cursor + 200
  ([p1, p2, o, p3], cursor - ctx.width, s4)

/-- `pattern_saw_dodge`: sawblades with safe paths. -/
def DashCtx.pattern_saw_dodge (ctx : DashCtx) (st : DashState) :
    List Obstacle × Rat × DashState :=
  let cursor := ctx.base_x
  let (w1, s1) := ctx.saw st cursor (some (ctx.ground_y - 130)) 44
  let (o, s2) := ctx.orb s1 (cursor - 30) (some (ctx.ground_y - 200))
  let cursor := cursor + 180 + 100
  let (w2, s3) := ctx.saw s2 cursor (some (ctx.ground_y - 160)) 44
  let cursor := cursor + 180
  ([w1, o, w2], cursor - ctx.width, s3)

/-- `pattern_gravity_portal`: two gravity portals with a ceiling platform. -/
def DashCtx.pattern_gravity_portal (ctx : DashCtx) (st : DashState) :
    List Obstacle × Rat × DashState :=
  let cursor := ctx.base_x
  let (p1, s1) := ctx.portal st cursor "gravity"
  let cursor := cursor + 200
  let (pl, s2) := ctx.platform s1 cursor 150 (some (ctx.ceiling_y + 100))
  let cursor := cursor + 180
  let (o, s3) := ctx.orb s2 cursor (some (ctx.ceiling_y + 160))
  let cursor := cursor + 120
  let (p2, s4) := ctx.portal s3 cursor "gravity"
  let cursor := cursor + 220
  ([p1, pl, o, p2], cursor - ctx.width, s4)

/-- `pattern_speed_portal`: a speed portal followed by spikes and an orb. -/
def DashCtx.pattern_speed_portal (ctx : DashCtx) (st : DashState) :
    List Obstacle × Rat × DashState :=
  let cursor := ctx.base_x
  let (p, s1) := ctx.portal st cursor "speed"
  let cursor := cursor + 180
  let (sp1, s2) := ctx.spike s1 cursor "up"
  let cursor := cursor + 150
  let (o, s3) := ctx.orb s2 cursor (some (ctx.ground_y - 180))
  let cursor := cursor + 120
  let (sp2, s4) := ctx.spike s3 cursor "up"
  let cursor := cursor + 200
  ([p, sp1, o, sp2], cursor - ctx.width, s4)

/-- `pattern_checkpoint`: rest area, with a finish-line marker when
`distance > 0 and int(distance) % 800 < 150`. -/
def DashCtx.pattern_checkpoint (ctx : DashCtx) (st : DashState) :
    List Obstacle × Rat × DashState :=
  let cursor := ctx.base_x
  let (pl, s1) := ctx.platform st cursor 200 (some (ctx.ground_y - 120))
  let cursor := cursor + 240
  let (o1, s2) := ctx.orb s1 cursor (some (ctx.ground_y - 160))
  let cursor := cursor + 80
  let (o2, s3) := ctx.orb s2 cursor (some (ctx.ground_y - 160))
  let cursor := cursor + 120
  if ctx.distance > 0 ∧ (ratTrunc ctx.distance).emod 800 < 150 then
    let (f, s4) := ctx.finish_line s3 cursor
    ([pl, o1, o2, f], (cursor + 60) - ctx.width, s4)
  else
    ([pl, o1, o2], cursor - ctx.width, s3)

/-- `pattern_pad_bounce`: jump pad, block, landing platform. -/
def DashCtx.pattern_pad_bounce (ctx : DashCtx) (st : DashState) :
    List Obstacle × Rat × DashState :=
  let cursor := ctx.base_x
  let (pd, s1) := ctx.pad st cursor
  let cursor := cursor + 100
  let (b, s2) := ctx.block s1 cursor 80 70
  let cursor := cursor + 160
  let (pl, s3) := ctx.platform s2 cursor 130 (some (ctx.ground_y - 140))
  let cursor := cursor + 200
  ([pd, b, pl], cursor - ctx.width, s3)

/-- `pattern_mixed_easy`: block, orb, platform, spike. -/
def DashCtx.pattern_mixed_easy (ctx : DashCtx) (st : DashState) :
    List Obstacle × Rat × DashState :=
  let cursor := ctx.base_x
  let (b, s1) := ctx.block st cursor 60 50
  let cursor := cursor + 140
  let (o, s2) := ctx.orb s1 cursor (some (ctx.ground_y - 170))
  let cursor := cursor + 80
  let (pl, s3) := ctx.platform s2 cursor 120 (some (ctx.ground_y - 150))
  let cursor := cursor + 180
  let (sp, s4) := ctx.spike s3 cursor "up"
  let cursor := cursor + 160
  ([b, o, pl, sp], cursor - ctx.width, s4)

/-- The JSON object returned by `geometry_dash.pattern` (each `Obstacle` is
serialized by `asdict`). -/
structure PatternResult where
  obstacles : List Obstacle
  next_spawn : Rat
  theme : String
  palette : List (String × String)
  beat_interval : Rat
  pattern_name : String
  stage : String
deriving DecidableEq, Repr

/-- The per-stage weighted pattern pools of `pattern`, in source order. -/
def dashPool (config : DashConfig) (stage : String) : List (String × Rat) :=
  let platform_rate := config.platform_rate
  let orb_rate := config.orb_rate
  let portal_rate := config.portal_rate
  let mid : List (String × Rat) :=
    [("platform_jump", 0.9 + platform_rate), ("orb_chain", 0.8 + orb_rate),
     ("spike_gap", 0.6), ("saw_dodge", 0.5), ("block_hop", 0.5),
     ("gravity_portal", 0.3 + portal_rate), ("checkpoint", 0.25)]
  match stage with
  | "intro" =>
      [("platform_run", 1.2), ("single_spike", 0.8), ("checkpoint", 0.5),
       ("mixed_easy", 0.6)]
  | "early" =>
      [("platform_run", 1.0 + platform_rate), ("single_spike", 0.7),
       ("spike_gap", 0.6), ("block_hop", 0.5), ("orb_chain", 0.6 + orb_rate),
       ("checkpoint", 0.3)]
  | "mid" => mid
  | "late" =>
      [("platform_jump", 0.8 + platform_rate), ("saw_dodge", 0.7),
       ("orb_chain", 0.75 + orb_rate), ("gravity_portal", 0.4 + portal_rate),
       ("speed_portal", 0.35 + portal_rate), ("pad_bounce", 0.4),
       ("checkpoint", 0.2)]
  | "endgame" =>
      [("saw_dodge", 0.8), ("gravity_portal", 0.5 + portal_rate),
       ("speed_portal", 0.45 + portal_rate), ("platform_jump", 0.7 + platform_rate),
       ("orb_chain", 0.65 + orb_rate), ("pad_bounce", 0.5), ("checkpoint", 0.15)]
  | _ => mid

/-- The `methods` dispatch table of `pattern` (`methods.get(choice,
gen.pattern_platform_run)`). -/
def dashDispatch (ctx : DashCtx) (choice : String) (st : DashState) :
    List Obstacle × Rat × DashState :=
  match choice with
  | "platform_run" => ctx.pattern_platform_run st
  | "single_spike" => ctx.pattern_single_spike st
  | "spike_gap" => ctx.pattern_spike_gap st
  | "block_hop" => ctx.pattern_block_hop st
  | "orb_chain" => ctx.pattern_orb_chain st
  | "platform_jump" => ctx.pattern_platform_jump st
  | "saw_dodge" => ctx.pattern_saw_dodge st
  | "gravity_portal" => ctx.pattern_gravity_portal st
  | "speed_portal" => ctx.pattern_speed_portal st
  | "checkpoint" => ctx.pattern_checkpoint st
  | "pad_bounce" => ctx.pattern_pad_bounce st
  | "mixed_easy" => ctx.pattern_mixed_easy st
  | _ => ctx.pattern_platform_run st

/-- `geometry_dash.pattern(distance, difficulty, ground_y, width)`: the
procedural obstacle-chunk generator.  A pure function of its four arguments:
the seed string is derived from the normalized difficulty and the distance
chunk alone, and a fresh generator instance is created per call. -/
def pattern (distance : Rat) (difficulty : String) (ground_y width : Rat) :
    PatternResult :=
  let difficulty_key := pyLower (pyStrip (if difficulty = "" then "medium" else difficulty))
  let config := dashConfigFor difficulty_key
  let dist := distance
  let stage :=
    if dist < 200 then "intro"
    else if dist < 500 then "early"
    else if dist < 900 then "mid"
    else if dist < 1400 then "late"
    else "endgame"
  let chunk : Int := Rat.floor (dist / 150)
  let seed := "vanilla-dash-" ++ difficulty_key ++ "-" ++ toString chunk
  let ctx := mkDashCtx difficulty_key ground_y width dist
  let st : DashState := ⟨mkRandom seed, 0⟩
  let theme_names := THEMES.map (·.1)
  let theme := theme_names.getD ((chunk.fdiv 3).emod (theme_names.length : Int)).toNat "neon"
  let neon := ((THEMES.find? (fun t => t.1 == "neon")).map (·.2)).getD []
  let palette := ((THEMES.find? (fun t => t.1 == theme)).map (·.2)).getD neon
  let wc := _weighted_choice st.rng (dashPool config stage)
  let choice := wc.1
  let st := { st with rng := wc.2 }
  let gen := dashDispatch ctx choice st
  let obstacles := gen.1
  let pattern_width := gen.2.1
  let st := gen.2.2
  let r := st.random
  let breathing := 120 + r.1 * 100
  let next_spawn := max 220 (pattern_width + breathing) / max 0.45 config.density
  let beat_interval := 60000 / max 40 config.bpm
  ⟨obstacles, next_spawn, theme, palette, beat_interval, choice, stage⟩

/-! ## Breakout backend (`backends/breakout.py`) -/

def PALETTE : List String := ["#9de8c7", "#a5b4fc", "#fcd34d", "#fb7185", "#6ee7ff"]

/-- The per-difficulty base physics table of `_physics_for_level`. -/
structure BreakoutBase where
  maxBounceDeg : Rat
  paddleInfluence : Rat
  spinFromPaddle : Rat
  spinFromEdge : Rat
  spinMagnus : Rat
  spinDecay : Rat
  maxSpin : Rat
  speedUpBrick : Rat
  speedUpLevel : Rat
  maxSpeed : Rat
  minSpeed : Rat
  paddleSpeed : Rat
deriving DecidableEq, Repr

/-- `{"easy": …, "medium": …, "hard": …}.get(difficulty_key, {})`; for an
unrecognized key every later `base.get(k, default)` falls back to its literal
default, collected here as a fourth record. -/
def breakoutBaseFor (difficulty_key : String) : BreakoutBase :=
  match difficulty_key with
  | "easy" => ⟨60.0, 0.20, 0.016, 0.14, 0.060, 0.992, 0.50, 0.050, 0.22, 8.2, 3.0, 8.3⟩
  | "medium" => ⟨62.0, 0.24, 0.020, 0.18, 0.075, 0.991, 0.55, 0.060, 0.26, 8.7, 3.2, 8.6⟩
  | "hard" => ⟨64.0, 0.27, 0.023, 0.20, 0.085, 0.990, 0.60, 0.070, 0.30, 9.2, 3.4, 9.0⟩
  | _ => ⟨62.0, 0.24, 0.02, 0.18, 0.075, 0.991, 0.55, 0.06, 0.26, 8.7, 3.2, 8.6⟩

/-- The physics dict returned by `_physics_for_level`. -/
structure BreakoutPhysics where
  maxBounceDeg : Rat
  paddleInfluence : Rat
  spinFromPaddle : Rat
  spinFromEdge : Rat
  spinMagnus : Rat
  spinDecay : Rat
  maxSpin : Rat
  speedUpBrick : Rat
  speedUpLevel : Rat
  maxSpeed : Rat
  minSpeed : Rat
  paddleSpeed : Rat
deriving DecidableEq, Repr

/-- `_physics_for_level(level, difficulty, rng)`: per-level tuning with twelve
`rng.uniform` draws, consumed in the source's evaluation order (the three
precomputed values first, then the dict literal's entries). -/
def _physics_for_level (level : Int) (difficulty : String) (rng : PRNG) :
    BreakoutPhysics × PRNG :=
  let difficulty_key := pyLower (if difficulty = "" then "medium" else difficulty)
  let base := breakoutBaseFor difficulty_key
  let lvl := max 1 level
  let progress := min 1 (max 0 (((lvl : Rat) - 1) / 6))
  let u1 := rng.uniform (-0.05) 0.05
  let max_speed := base.maxSpeed + progress * 0.55 + u1.1
  let u2 := u1.2.uniform (-0.004) 0.004
  let speed_up_brick := base.speedUpBrick + progress * 0.015 + u2.1
  let u3 := u2.2.uniform (-0.01) 0.01
  let paddle_influence := base.paddleInfluence + progress * 0.02 + u3.1
  let u4 := u3.2.uniform (-2.0) 2.0
  let u5 := u4.2.uniform (-0.002) 0.002
  let u6 := u5.2.uniform (-0.02) 0.02
  let u7 := u6.2.uniform (-0.01) 0.01
  let u8 := u7.2.uniform (-0.002) 0.002
  let u9 := u8.2.uniform (-0.04) 0.04
  let u10 := u9.2.uniform (-0.03) 0.03
  let u11 := u10.2.uniform (-0.1) 0.1
  let u12 := u11.2.uniform (-0.1) 0.1
  (⟨base.maxBounceDeg + u4.1 * 0.35,
    max 0 paddle_influence,
    max 0 (base.spinFromPaddle + u5.1),
    max 0 (base.spinFromEdge + u6.1),
    max 0 (base.spinMagnus + u7.1),
    min 0.999 (max 0.95 (base.spinDecay + u8.1)),
    max 0 (base.maxSpin + u9.1),
    max 0 speed_up_brick,
    max 0 (base.speedUpLevel + u10.1 * 0.35),
    max 1 max_speed,
    max 0.5 (base.minSpeed + u11.1 * 0.2),
    max 1 (base.paddleSpeed + progress * 0.25 + u12.1)⟩, u12.2)

/-- One brick of the generated layout. -/
structure Brick where
  x : Rat
  y : Rat
  w : Rat
  h : Rat
  hp : Int
  color : String
deriving DecidableEq, Repr

/-- The JSON object returned by `breakout.level_layout`. -/
structure BreakoutLayout where
  cols : Nat
  rows : Int
  bricks : List Brick
  physics : BreakoutPhysics
deriving DecidableEq, Repr

/-- `breakout.level_layout(level, width, difficulty)`: seeded by
`"breakout-{difficulty}-{level}-{width}"`; a pure function of its three
arguments.  The extra-hp draw is only consumed when `level >= 3`
(short-circuit of `level >= 3 and rng.random() < 0.2`), and skipped gap
bricks consume no draw. -/
def level_layout (level : Int) (width : Rat) (difficulty : String) : BreakoutLayout :=
  let rng := mkRandom ("breakout-" ++ difficulty ++ "-" ++ toString level ++ "-"
    ++ ratStr width)
  let cols : Nat := 10
  let rows : Int := 4 + min 4 level
  let brick_width := width / (cols : Rat)
  let brick_height : Rat := 24
  let gc := if level > 1 then rng.randint 0 ((cols : Int) - 1) else (-1, rng)
  let gap_col := gc.1
  let fin := (List.range rows.toNat).foldl (fun accRow row =>
    (List.range cols).foldl (fun acc col =>
      let (bricks, g0) := acc
      if (col : Int) = gap_col ∧ row % 2 = 1 then (bricks, g0)
      else
        let hp : Int := 1 + ((row : Int) + level).emod 2
        let (hp, g1) :=
          if level ≥ 3 then
            let r := g0.random
            (if r.1 < 0.2 then hp + 1 else hp, r.2)
          else (hp, g0)
        (bricks ++ [⟨(col : Rat) * brick_width + 4,
          (row : Rat) * (brick_height + 6) + 40,
          brick_width - 8, brick_height, hp,
          PALETTE.getD ((row + col) % PALETTE.length) ""⟩], g1)) accRow)
    (([] : List Brick), gc.2)
  let physics := _physics_for_level level difficulty fin.2
  ⟨cols, rows, fin.1, physics.1⟩

/-! ## Space Shooters backend (`backends/space_shooters.py`) -/

/-- One enemy of a generated wave. -/
structure Enemy where
  kind : String
  pattern : String
  hp : Nat
  x : Rat
  y : Rat
  w : Rat
  h : Rat
  speed : Rat
  phase : Rat
deriving DecidableEq, Repr

/-- One powerup drop of a generated wave. -/
structure Powerup where
  type : String
  delay : Rat
  x : Rat
deriving DecidableEq, Repr

/-- The JSON object returned by `space_shooters.wave_plan`. -/
structure WavePlan where
  wave : Int
  enemies : List Enemy
  powerups : List Powerup
deriving DecidableEq, Repr

/-- `space_shooters.wave_plan(wave, difficulty, width, height)`: seeded by
`"{difficulty}-wave-{wave}"`.  Per enemy the draws are consumed in the dict
literal's order (roll, x, y, speed, phase); the powerup `choice` draw is only
consumed when `wave % 4 != 0` (conditional expression short-circuit). -/
def wave_plan (wave : Int) (difficulty : String) (width height : Rat) : WavePlan :=
  let rng := mkRandom (difficulty ++ "-wave-" ++ toString wave)
  let base_count : Int := max 4 (min 8 (3 + wave))
  let fin := (List.range base_count.toNat).foldl (fun acc _ =>
    let (enemies, g0) := acc
    let (roll, g1) := g0.random
    let kph : String × String × Nat :=
      if roll > 0.8 then ("bomber", "sway", 2)
      else if roll > 0.58 then ("zig", "zigzag", 2)
      else if roll > 0.38 then ("slicer", "strafe", 1)
      else ("drone", "straight", 1)
    let (ex, g2) := g1.uniform 40 (width - 40)
    let (ey, g3) := g2.uniform 40 160
    let (esp, g4) := g3.uniform 140 220
    let (eph, g5) := g4.random
    (enemies ++ [⟨kph.1, kph.2.1, kph.2.2, ex, -ey, 34, 24,
      esp + (wave : Rat) * 4, eph * 6.28⟩], g5)) (([] : List Enemy), rng)
  let (pr, h0) := fin.2.random
  let powerups :=
    if pr < 0.55 then
      let dt := if wave.emod 4 = 0 then ("shield", h0)
        else h0.choice ["rapid", "double"] "rapid"
      let (delay, h2) := dt.2.uniform 0.5 1.6
      let (px, _) := h2.uniform 0.25 0.75
      [(⟨dt.1, delay, width * px⟩ : Powerup)]
    else []
  ⟨wave, fin.1, powerups⟩

/-! ## HTTP handler layer (`server.py` routes) -/

/-- A parsed JSON request payload (`request.get_json(silent=True) or {}`),
restricted to the scalar fields the handlers read. -/
abbrev Payload := List (String × PyVal)

/-- `payload.get(key)`. -/
def pget (payload : Payload) (key : String) : Option PyVal :=
  (payload.find? (fun kv => kv.1 == key)).map (·.2)

/-- `payload.get(key)` as a `PyVal` (`None` when absent). -/
def pgetV (payload : Payload) (key : String) : PyVal :=
  (pget payload key).getD PyVal.none

/-- Python `a or b`. -/
def pyOr (a b : PyVal) : PyVal := if pyTruthy a then a else b

/-- `payload.get(key) or default`: the handlers' fallback idiom for numeric
fields. -/
def getOrDefault (payload : Payload) (key : String) (d : PyVal) : PyVal :=
  pyOr (pgetV payload key) d

/-- A numeric field the handlers replace by the documented fallback constant:
absent from the payload, or present but falsy (the `or` in
`payload.get(key) or default` discards falsy values such as `0` and `""`). -/
def fieldDefaulted (payload : Payload) (key : String) : Prop :=
  match pget payload key with
  | Option.none => True
  | some v => pyTruthy v = false

/-- The server's local `clamp(value, low, high)`. -/
def pyClamp (value lo hi : Rat) : Rat := max lo (min hi value)

/-- The `breakout_level` route body after the OPTIONS branch:
`level = int(payload.get("level") or 1)`, `width = float(payload.get("width")
or 900)`, `difficulty = str(payload.get("difficulty") or "medium").lower()`,
then `breakout.level_layout(level, width, difficulty)`.  `none` models an
uncaught conversion exception (a 500, not a layout). -/
def breakout_level (payload : Payload) : Option BreakoutLayout := do
  let level ← pyIntOfVal (getOrDefault payload "level" (PyVal.int 1))
  let width ← pyFloatOfVal (getOrDefault payload "width" (PyVal.int 900))
  let difficulty := pyLower (pyStr (getOrDefault payload "difficulty" (PyVal.str "medium")))
  some (level_layout level width difficulty)

/-- The `space_wave` route body after the OPTIONS branch: extract
`wave`/`difficulty`/`width`/`height` with the same fallback idiom, call
`wave_plan`, then clamp every enemy and powerup x into `[24, width - 24]`. -/
def space_wave (payload : Payload) : Option WavePlan := do
  let wave ← pyIntOfVal (getOrDefault payload "wave" (PyVal.int 1))
  let difficulty := pyLower (pyStr (getOrDefault payload "difficulty" (PyVal.str "medium")))
  let width ← pyFloatOfVal (getOrDefault payload "width" (PyVal.int 900))
  let height ← pyFloatOfVal (getOrDefault payload "height" (PyVal.int 600))
  let plan := wave_plan wave difficulty width height
  some { plan with
    enemies := plan.enemies.map (fun e => { e with x := pyClamp e.x 24 (width - 24) }),
    powerups := plan.powerups.map (fun p => { p with x := pyClamp p.x 24 (width - 24) }) }

/-- Outcome of `handle_score_submission`: a JSON error with its HTTP status,
or the 201 payload (`entry` plus the refreshed leaderboard). -/
inductive ScoreResponse where
  | error (msg : String) (status : Nat)
  | ok (entry : ScoreEntry) (leaderboard : List ScoreEntry) (status : Nat)
deriving DecidableEq, Repr

/-- `handle_score_submission(payload)`: sanitize the fields (with the
`game_name`/`name` aliases), run the four validators in order, then
`store.add_score` under the lock; returns the response and the new stored
mapping (`now` stands for the UTC timestamp). -/
def handle_score_submission (payload : Payload) (data : ScoresMap) (now : String) :
    ScoreResponse × ScoresMap :=
  let game := pyLower (sanitize_string (pyOr (pgetV payload "game") (pgetV payload "game_name")) 50)
  let player := sanitize_string (pyOr (pgetV payload "player") (pgetV payload "name"))
    MAX_PLAYER_NAME_LENGTH
  let difficulty := pyLower (sanitize_string (pyOr (pgetV payload "difficulty")
    (PyVal.str "unknown")) 20)
  let raw_score := pgetV payload "score"
  let vg := validate_game game
  if vg.1 = false then (ScoreResponse.error vg.2 400, data)
  else
    let vp := validate_player_name player
    if vp.1 = false then (ScoreResponse.error vp.2 400, data)
    else
      let vd := validate_difficulty difficulty
      if vd.1 = false then (ScoreResponse.error vd.2 400, data)
      else
        let vs := validate_score raw_score
        if vs.1 = false then (ScoreResponse.error vs.2.1 400, data)
        else
          match ScoreStore_add_score data game player vs.2.2 difficulty now with
          | Except.error e => (ScoreResponse.error e 400, data)
          | Except.ok (data', entry) =>
              (ScoreResponse.ok entry ((mapGet data' game).getD []) 201, data')

/-! ## Concrete values used by the XSS submission instance -/

/-- The entry stored for the `<script>alert(1)</script>` submission: the name
is escaped and truncated to 32 characters before validation and storage. -/
def xssEntry : ScoreEntry :=
  ⟨"&lt;script&gt;alert(1)&lt;/scrip", 100, "unknown", "2026-01-01T00:00:00+00:00"⟩

/-! ## Helper lemmas -/

theorem weightedWalk_mem : ∀ (pick : Rat) (items : List (String × Rat)) (k : String),
    weightedWalk pick items = some k → k ∈ items.map Prod.fst := by
  intro pick items
  induction items generalizing pick with
  | nil => intro k h; simp [weightedWalk] at h
  | cons a rest ih =>
    intro k h
    rw [weightedWalk] at h
    by_cases hc : pick - a.2 ≤ 0
    · rw [if_pos hc] at h
      cases h
      exact List.mem_map_of_mem _ (List.mem_cons_self _ _)
    · rw [if_neg hc] at h
      exact List.mem_cons_of_mem _ (ih _ _ h)

theorem getLastD_mem : ∀ (l : List α) (d : α), l ≠ [] → l.getLastD d ∈ l := by
  intro l
  induction l with
  | nil => intro d h; exact absurd rfl h
  | cons a t ih =>
    intro d _
    rw [List.getLastD_cons]
    match t with
    | [] => exact List.mem_singleton.mpr rfl
    | b :: t' => exact List.mem_cons_of_mem _ (ih a (by simp))

theorem foldl_min_mem : ∀ (t : List Rat) (a : Rat), t.foldl min a = a ∨ t.foldl min a ∈ t := by
  intro t
  induction t with
  | nil => intro a; left; rfl
  | cons b t ih =>
    intro a
    rcases ih (min a b) with h | h
    · rcases min_choice a b with hm | hm
      · left; rw [List.foldl_cons, h, hm]
      · right; rw [List.foldl_cons, h, hm]; exact List.mem_cons_self _ _
    · right
      rw [List.foldl_cons]
      exact List.mem_cons_of_mem _ h

theorem pyMin_mem (ts : List Rat) (h : ts ≠ []) : pyMin ts ∈ ts := by
  match ts with
  | [] => exact absurd rfl h
  | a :: t =>
    rw [pyMin]
    rcases foldl_min_mem t a with h1 | h1
    · rw [h1]; exact List.mem_cons_self _ _
    · exact List.mem_cons_of_mem _ h1

theorem mapGet_mapSet : ∀ (m : ScoresMap) (g : String) (l : List ScoreEntry),
    mapGet (mapSet m g l) g = some l := by
  intro m g l
  induction m with
  | nil => simp [mapGet, mapSet]
  | cons p t ih =>
    by_cases h : p.1 = g
    · simp [mapSet, mapGet, h]
    · simp [mapSet, mapGet, h, ih]

theorem pyShuffle_perm_aux [DecidableEq α] :
    ∀ (n : Nat) (g : PRNG) (l : List α), l.length ≤ n → List.Perm (pyShuffle g l) l := by
  intro n
  induction n with
  | zero =>
    intro g l hl
    have h0 : l = [] := List.length_eq_zero.mp (Nat.le_zero.mp hl)
    subst h0
    simp [pyShuffle]
  | succ n ih =>
    intro g l hl
    match l with
    | [] => simp [pyShuffle]
    | a :: t =>
      rw [pyShuffle]
      have hj : (g.randbelow (a :: t).length).1 < (a :: t).length :=
        g.randbelow_lt _ (Nat.succ_pos _)
      have hj' : (g.randbelow (t.length + 1)).1 < t.length + 1 := by simpa using hj
      have hlen : ((a :: t).eraseIdx (g.randbelow (a :: t).length).1).length ≤ n := by
        simp only [List.length_eraseIdx, List.length_cons, if_pos hj']
        simp only [List.length_cons] at hl
        omega
      have h1 := ih (g.randbelow (a :: t).length).2 _ hlen
      have h2 : List.Perm ((a :: t).getD (g.randbelow (a :: t).length).1 a ::
          (a :: t).eraseIdx (g.randbelow (a :: t).length).1) (a :: t) := by
        rw [List.getD_eq_getElem _ _ hj]
        exact ((List.perm_cons_erase (List.getElem_mem hj)).trans
          ((List.erase_getElem hj).cons _)).symm
      exact (h1.cons _).trans h2

theorem pyShuffle_perm [DecidableEq α] (g : PRNG) (l : List α) : List.Perm (pyShuffle g l) l :=
  pyShuffle_perm_aux l.length g l (le_refl _)

/-! ## Claim theorems -/

/-- C1: Determinism of the procedural generators — each generator is a pure
function of its input tuple (seeded only by a string derived from those
arguments, with no cross-call state or clock dependence), so two calls with
identical inputs return identical outputs. -/
theorem generators_deterministic :
    (∀ (d d' : Rat) (δ δ' : String) (g g' w w' : Rat),
        d = d' → δ = δ' → g = g' → w = w' →
        pattern d δ g w = pattern d' δ' g' w') ∧
    (∀ (l l' : Int) (w w' : Rat) (δ δ' : String),
        l = l' → w = w' → δ = δ' →
        level_layout l w δ = level_layout l' w' δ') ∧
    (∀ (v v' : Int) (δ δ' : String) (w w' h h' : Rat),
        v = v' → δ = δ' → w = w' → h = h' →
        wave_plan v δ w h = wave_plan v' δ' w' h') ∧
    (∀ (gr gr' : Nat) (s s' : List Cell),
        gr = gr' → s = s' → next_food gr s = next_food gr' s') ∧
    (∀ (r r' c c' m m' : Nat) (s s' : Cell),
        r = r' → c = c' → m = m' → s = s' →
        generate_board r c m s = generate_board r' c' m' s') := by
  refine ⟨?_, ?_, ?_, ?_, ?_⟩ <;> (intros; subst_vars; rfl)

/-- Witness for C1 at concrete inputs. -/
theorem generators_deterministic_witness :
    pattern 300 "medium" 540 960 = pattern 300 "medium" 540 960 ∧
    level_layout 3 900 "hard" = level_layout 3 900 "hard" :=
  ⟨generators_deterministic.1 300 300 "medium" "medium" 540 540 960 960 rfl rfl rfl rfl,
   generators_deterministic.2.1 3 3 900 900 "hard" "hard" rfl rfl rfl⟩

/-- C3: `validate_score` boundary behaviour — the five concrete cases of the
spec, and in general success exactly when `int(score)` is defined and lies in
`[0, 999999999]`, returning that integer. -/
theorem validate_score_boundaries :
    (validate_score (PyVal.int (-1))).1 = false ∧
    validate_score (PyVal.int 999999999) = (true, "", 999999999) ∧
    (validate_score (PyVal.int 1000000000)).1 = false ∧
    (validate_score (PyVal.str "abc")).1 = false ∧
    validate_score (PyVal.float (mkRat 201 2)) = (true, "", 100) ∧
    (∀ v : PyVal, (validate_score v).1 = true ↔
      ∃ n, pyIntOfVal v = some n ∧ MIN_SCORE_VALUE ≤ n ∧ n ≤ MAX_SCORE_VALUE) ∧
    (∀ (v : PyVal) (n : Int), pyIntOfVal v = some n →
      MIN_SCORE_VALUE ≤ n → n ≤ MAX_SCORE_VALUE → validate_score v = (true, "", n)) := by
  refine ⟨by decide, by decide, by decide, by decide, by decide, ?_, ?_⟩
  · intro v
    constructor
    · intro h
      match hv : pyIntOfVal v with
      | Option.none => simp [validate_score, hv] at h
      | some n =>
        simp only [validate_score, hv] at h
        by_cases h1 : n < MIN_SCORE_VALUE
        · rw [if_pos h1] at h; simp at h
        · by_cases h2 : n > MAX_SCORE_VALUE
          · rw [if_neg h1, if_pos h2] at h; simp at h
          · exact ⟨n, rfl, le_of_not_lt h1, le_of_not_lt h2⟩
    · rintro ⟨n, hv, h1, h2⟩
      simp only [validate_score, hv]
      rw [if_neg (not_lt.mpr h1), if_neg (not_lt.mpr h2)]
  · intro v n hv h1 h2
    simp only [validate_score, hv]
    rw [if_neg (not_lt.mpr h1), if_neg (not_lt.mpr h2)]

/-- Witness for C3's general clauses at the concrete score 7. -/
theorem validate_score_boundaries_witness :
    pyIntOfVal (PyVal.int 7) = some 7 ∧ MIN_SCORE_VALUE ≤ (7 : Int) ∧
    (7 : Int) ≤ MAX_SCORE_VALUE ∧ validate_score (PyVal.int 7) = (true, "", 7) :=
  ⟨rfl, by decide, by decide,
   validate_score_boundaries.2.2.2.2.2.2 (PyVal.int 7) 7 rfl (by decide) (by decide)⟩

/-- C9: `ScoreStore._read` corruption recovery — for every corrupt backing
file (missing, unparseable, or non-object top level) it resets the file to the
default empty per-game mapping and returns that default; for every file state
the returned value is an object, so no read or write fails on corruption. -/
theorem read_recovers_from_corruption :
    (∀ fs : FileState, corruptFile fs →
        ScoreStore_read fs = (FileState.parsed DEFAULT_SCORES, DEFAULT_SCORES)) ∧
    (∀ fs : FileState, isJsonObj (ScoreStore_read fs).2 = true) := by
  constructor
  · intro fs hc
    match fs with
    | FileState.missing => rfl
    | FileState.invalid _ => rfl
    | FileState.parsed Json.null => rfl
    | FileState.parsed (Json.bool _) => rfl
    | FileState.parsed (Json.num _) => rfl
    | FileState.parsed (Json.str _) => rfl
    | FileState.parsed (Json.arr _) => rfl
    | FileState.parsed (Json.obj _) => exact absurd hc (by simp [corruptFile, isJsonObj])
  · intro fs
    match fs with
    | FileState.missing => rfl
    | FileState.invalid _ => rfl
    | FileState.parsed Json.null => rfl
    | FileState.parsed (Json.bool _) => rfl
    | FileState.parsed (Json.num _) => rfl
    | FileState.parsed (Json.str _) => rfl
    | FileState.parsed (Json.arr _) => rfl
    | FileState.parsed (Json.obj _) => rfl

/-- Witness for C9 at a missing backing file. -/
theorem read_recovers_from_corruption_witness :
    ScoreStore_read FileState.missing = (FileState.parsed DEFAULT_SCORES, DEFAULT_SCORES) :=
  read_recovers_from_corruption.1 FileState.missing trivial

/-- C10 (implicit): minesweeper board generation guarantees the safe zone —
no returned mine lies in the 3×3 neighbourhood of the safe cell, and the mine
count equals `min(mines, number of cells outside that neighbourhood)` (extra
requested mines are silently dropped, never an error). -/
theorem generate_board_safe_zone (rows cols mines : Nat) (safe : Cell) :
    (∀ m ∈ (generate_board rows cols mines safe).mines, m ∉ safeZone safe) ∧
    (generate_board rows cols mines safe).mines.length
      = min mines (minePositions rows cols safe).length := by
  constructor
  · intro m hm
    simp only [generate_board] at hm
    have h1 : m ∈ pyShuffle (mkRandom ("mines-" ++ toString rows ++ "-" ++ toString cols
        ++ "-" ++ toString mines ++ "-(" ++ toString safe.1 ++ ", " ++ toString safe.2 ++ ")"))
        (minePositions rows cols safe) := List.take_subset _ _ hm
    have h2 : m ∈ minePositions rows cols safe := (pyShuffle_perm _ _).mem_iff.mp h1
    have h3 := (List.mem_filter.mp h2).2
    simpa using of_decide_eq_true h3
  · simp only [generate_board]
    rw [List.length_take, (pyShuffle_perm _ _).length_eq]
    omega

/-- C2: Leaderboard cap and ordering invariant — after `add_score` for any
game and valid submission, the stored list for that game has at most
`MAX_ENTRIES = 15` entries and is sorted by score, descending for normal games
and ascending for the games in `ASCENDING_GAMES`. -/
theorem add_score_cap_and_order (data : ScoresMap) (game player : String) (score : Int)
    (difficulty now : String) (hp : ¬(player = "" ∨ pyStrip player = "")) :
    ∃ data' entry, ScoreStore_add_score data game player score difficulty now
        = Except.ok (data', entry) ∧
      ∃ l, mapGet data' game = some l ∧ l.length ≤ MAX_ENTRIES ∧
        (game ∉ ASCENDING_GAMES → l.Sorted scoreDesc) ∧
        (game ∈ ASCENDING_GAMES → l.Sorted scoreAsc) := by
  rw [ScoreStore_add_score, if_neg hp]
  refine ⟨_, _, rfl, _, mapGet_mapSet _ _ _, ?_, ?_, ?_⟩
  · rw [List.length_take]
    exact min_le_left _ _
  · intro hg
    rw [if_pos hg]
    exact List.Pairwise.sublist (List.take_sublist _ _)
      (List.sorted_insertionSort scoreDesc _)
  · intro hg
    rw [if_neg (not_not_intro hg)]
    exact List.Pairwise.sublist (List.take_sublist _ _)
      (List.sorted_insertionSort scoreAsc _)

/-- Witness for C2 at a concrete submission. -/
theorem add_score_cap_and_order_witness :
    ∃ data' entry,
      ScoreStore_add_score [] "snake" "Alice" 100 "hard" "2026-01-01T00:00:00+00:00"
        = Except.ok (data', entry) ∧
      ∃ l, mapGet data' "snake" = some l ∧ l.length ≤ MAX_ENTRIES ∧
        ("snake" ∉ ASCENDING_GAMES → l.Sorted scoreDesc) ∧
        ("snake" ∈ ASCENDING_GAMES → l.Sorted scoreAsc) :=
  add_score_cap_and_order [] "snake" "Alice" 100 "hard" "2026-01-01T00:00:00+00:00"
    (by decide)

/-- C8: `_weighted_choice` — the empty table returns the fixed default
`"platform_run"` without consuming the stream; a non-empty table always yields
one of its keys (covering both the subtraction walk and the zero-total uniform
fallback); the drawn value lies in `[0, total)`; and the choice is a pure
function of the rng state and the table order. -/
theorem weighted_choice_spec :
    (∀ g : PRNG, _weighted_choice g [] = ("platform_run", g)) ∧
    (∀ (g : PRNG) (weights : List (String × Rat)), weights ≠ [] →
      (_weighted_choice g weights).1 ∈ weights.map Prod.fst) ∧
    (∀ (g : PRNG) (total : Rat), 0 < total →
      0 ≤ g.random.1 * total ∧ g.random.1 * total < total) ∧
    (∀ (g g' : PRNG) (w w' : List (String × Rat)), g = g' → w = w' →
      _weighted_choice g w = _weighted_choice g' w') := by
  refine ⟨fun g => rfl, ?_, ?_, ?_⟩
  · intro g weights hw
    have hitems : weights.map (fun kw => (kw.1, max 0 kw.2)) ≠ [] := by
      simpa using hw
    have hkey : ∀ y : String,
        y ∈ (weights.map (fun kw => (kw.1, max 0 kw.2))).map (fun x => x.1) →
        y ∈ weights.map Prod.fst := by
      intro y hy
      rw [List.map_map] at hy
      exact hy
    rw [_weighted_choice]
    split
    · split
      · next heq => exact absurd (List.map_eq_nil_iff.mp heq) hw
      · exact hkey _ (PRNG.choice_mem g _ "platform_run" (by simpa using hw))
    · show ((match weightedWalk _ _ with
        | some k => k
        | Option.none => ((weights.map (fun kw => (kw.1, max 0 kw.2))).getLastD
            ("platform_run", 0)).1, _) : String × PRNG).1 ∈ _
      split
      · next k hwalk => exact hkey _ (weightedWalk_mem _ _ _ hwalk)
      · next hwalk => exact hkey _ (List.mem_map_of_mem _ (getLastD_mem _ _ hitems))
  · intro g total ht
    exact ⟨mul_nonneg g.random_nonneg ht.le,
      (mul_lt_iff_lt_one_left ht).mpr g.random_lt_one⟩
  · intro g g' w w' h1 h2
    subst h1; subst h2; rfl

/-- Witness for C8 at a concrete rng and table. -/
theorem weighted_choice_spec_witness :
    (_weighted_choice (mkRandom "x") [("a", 1), ("b", 2)]).1
      ∈ [("a", (1 : Rat)), ("b", 2)].map Prod.fst :=
  weighted_choice_spec.2.1 (mkRandom "x") [("a", 1), ("b", 2)] (by simp)

unseal Rat.sub in
/-- C5 counterexample: five requests recorded at time 0 and a 6th arriving at
t = 59.5 s — within the 60 s window, so it is rejected — but the computed
retry-after is `max(0, int(60 − 59.5)) = 0`, refuting "retry_after strictly
greater than 0" (integer truncation loses the fractional half second). -/
theorem rate_limit_retry_after_zero :
    (RateLimiter_is_allowed (mkRat 119 2) 5 60 [0, 0, 0, 0, 0]).1 = false ∧
    RateLimiter_get_retry_after (mkRat 119 2) 60
      (RateLimiter_is_allowed (mkRat 119 2) 5 60 [0, 0, 0, 0, 0]).2.2 = 0 := by
  decide

/-- C5 (amended): each check prunes entries older than the window and
(i) rejects with `remaining = 0`, recording nothing, when the pruned count is
at or above the maximum; (ii) otherwise records `now` and accepts; (iii) the
computed retry-after is ≥ 0, and (iv) strictly positive whenever at least one
full second of the window remains (truncation reports 0 in the final second);
(v) once the window has elapsed since the oldest recorded request, the next
request is accepted again. -/
theorem rate_limiter_amended :
    (∀ (now : Rat) (ts : List Rat), 5 ≤ (cleanup_old_requests now 60 ts).length →
        RateLimiter_is_allowed now 5 60 ts = (false, 0, cleanup_old_requests now 60 ts)) ∧
    (∀ (now : Rat) (ts : List Rat), (cleanup_old_requests now 60 ts).length < 5 →
        RateLimiter_is_allowed now 5 60 ts
          = (true, 5 - (cleanup_old_requests now 60 ts).length - 1,
             cleanup_old_requests now 60 ts ++ [now])) ∧
    (∀ (now window : Rat) (ts : List Rat), 0 ≤ RateLimiter_get_retry_after now window ts) ∧
    (∀ (now : Rat) (ts : List Rat), ts ≠ [] → now - pyMin ts ≤ 59 →
        0 < RateLimiter_get_retry_after now 60 ts) ∧
    (∀ (now : Rat) (ts : List Rat), ts.length = 5 → pyMin ts ≤ now - 60 →
        (RateLimiter_is_allowed now 5 60 ts).1 = true) := by
  refine ⟨?_, ?_, ?_, ?_, ?_⟩
  · intro now ts h
    simp only [RateLimiter_is_allowed]
    rw [if_pos h]
  · intro now ts h
    simp only [RateLimiter_is_allowed]
    rw [if_neg (not_le.mpr h)]
  · intro now window ts
    match ts with
    | [] => exact le_refl 0
    | a :: t => exact le_max_left 0 _
  · intro now ts hne hmin
    match ts with
    | [] => exact absurd rfl hne
    | a :: t =>
      show 0 < max 0 (ratTrunc (60 - (now - t.foldl min a)))
      have hq : (1 : Rat) ≤ 60 - (now - t.foldl min a) := by
        have : now - pyMin (a :: t) ≤ 59 := hmin
        rw [pyMin] at this
        linarith
      have hfloor : 1 ≤ ratTrunc (60 - (now - t.foldl min a)) := by
        rw [ratTrunc, if_neg (not_lt.mpr (le_trans zero_le_one hq))]
        exact Rat.le_floor.mpr (by exact_mod_cast hq)
      exact lt_of_lt_of_le Int.one_pos (le_trans hfloor (le_max_right 0 _))
  · intro now ts hlen hmin
    have hne : ts ≠ [] := by
      intro h; rw [h] at hlen; exact absurd hlen (by decide)
    have hlt : (cleanup_old_requests now 60 ts).length < ts.length := by
      rw [cleanup_old_requests]
      exact List.length_filter_lt_length_iff_exists.mpr
        ⟨pyMin ts, pyMin_mem ts hne, by simpa using not_lt.mpr (by linarith)⟩
    simp only [RateLimiter_is_allowed]
    rw [if_neg (not_le.mpr (by omega))]

unseal Rat.sub in
/-- Witness for C5's amended clauses at concrete times. -/
theorem rate_limiter_amended_witness :
    RateLimiter_is_allowed 0 5 60 [0, 0, 0, 0, 0]
      = (false, 0, cleanup_old_requests 0 60 [0, 0, 0, 0, 0]) ∧
    0 < RateLimiter_get_retry_after 30 60 [0] ∧
    (RateLimiter_is_allowed 100 5 60 [0, 10, 20, 30, 40]).1 = true :=
  ⟨rate_limiter_amended.1 0 [0, 0, 0, 0, 0] (by decide),
   rate_limiter_amended.2.2.2.1 30 [0] (by decide) (by decide),
   rate_limiter_amended.2.2.2.2 100 [0, 10, 20, 30, 40] (by decide) (by decide)⟩

/-- C6 counterexample: a payload whose `width` field holds the non-numeric
string "abc" makes the `float()` conversion raise in both generation handlers,
so no layout is returned — the fallback constants only cover missing or falsy
fields, not malformed ones. -/
theorem generation_malformed_numeric_raises :
    breakout_level [("width", PyVal.str "abc")] = Option.none ∧
    space_wave [("width", PyVal.str "abc")] = Option.none := by
  decide

theorem getOrDefault_defaulted (payload : Payload) (key : String) (d : PyVal)
    (h : fieldDefaulted payload key) : getOrDefault payload key d = d := by
  match hp : pget payload key with
  | Option.none => simp [getOrDefault, pgetV, hp, pyOr, pyTruthy]
  | some v =>
      simp only [fieldDefaulted, hp] at h
      simp [getOrDefault, pgetV, hp, pyOr, h]

/-- C6 (amended): per numeric field, a missing field is replaced by its
documented fallback constant — level 1, width 900, wave 1, height 600 — which
always converts (the `or` idiom in fact also defaults present-but-falsy
values, which the theorem covers); and whenever each of a handler's numeric
fields, after this per-field fallback, converts, that handler returns a valid
layout without exception.  Only a present, truthy, non-numeric field can raise
(see the counterexample). -/
theorem generation_defaults_on_missing (payload : Payload) :
    (∀ (key : String) (d : PyVal), fieldDefaulted payload key →
        getOrDefault payload key d = d) ∧
    (fieldDefaulted payload "level" →
        pyIntOfVal (getOrDefault payload "level" (PyVal.int 1)) = some 1) ∧
    (fieldDefaulted payload "width" →
        pyFloatOfVal (getOrDefault payload "width" (PyVal.int 900)) = some 900) ∧
    (fieldDefaulted payload "wave" →
        pyIntOfVal (getOrDefault payload "wave" (PyVal.int 1)) = some 1) ∧
    (fieldDefaulted payload "height" →
        pyFloatOfVal (getOrDefault payload "height" (PyVal.int 600)) = some 600) ∧
    (∀ (n : Int) (w : Rat),
        pyIntOfVal (getOrDefault payload "level" (PyVal.int 1)) = some n →
        pyFloatOfVal (getOrDefault payload "width" (PyVal.int 900)) = some w →
        breakout_level payload = some (level_layout n w (pyLower (pyStr
          (getOrDefault payload "difficulty" (PyVal.str "medium")))))) ∧
    (∀ (v : Int) (w h : Rat),
        pyIntOfVal (getOrDefault payload "wave" (PyVal.int 1)) = some v →
        pyFloatOfVal (getOrDefault payload "width" (PyVal.int 900)) = some w →
        pyFloatOfVal (getOrDefault payload "height" (PyVal.int 600)) = some h →
        (space_wave payload).isSome = true) := by
  refine ⟨fun key d h => getOrDefault_defaulted payload key d h, ?_, ?_, ?_, ?_, ?_, ?_⟩
  · intro h
    rw [getOrDefault_defaulted _ _ _ h]
    rfl
  · intro h
    rw [getOrDefault_defaulted _ _ _ h]
    simp [pyFloatOfVal]
  · intro h
    rw [getOrDefault_defaulted _ _ _ h]
    rfl
  · intro h
    rw [getOrDefault_defaulted _ _ _ h]
    simp [pyFloatOfVal]
  · intro n w hn hw
    simp only [breakout_level, hn, hw, Option.bind_eq_bind, Option.some_bind]
  · intro v w h hv hw hh
    simp only [space_wave, hv, hw, hh, Option.bind_eq_bind, Option.some_bind,
      Option.isSome_some]

/-- Witness for C6's amended clauses at a payload whose `width` is present but
falsy (`0`) and whose other numeric fields are missing: width falls back to
900, level/wave/height to 1/1/600, and both handlers return a layout. -/
theorem generation_defaults_on_missing_witness :
    getOrDefault [("width", PyVal.int 0)] "width" (PyVal.int 900) = PyVal.int 900 ∧
    breakout_level [("width", PyVal.int 0)]
      = some (level_layout 1 900 (pyLower (pyStr (getOrDefault [("width", PyVal.int 0)]
          "difficulty" (PyVal.str "medium"))))) ∧
    (space_wave [("width", PyVal.int 0)]).isSome = true :=
  have hwd : fieldDefaulted [("width", PyVal.int 0)] "width" := rfl
  have hlv : fieldDefaulted [("width", PyVal.int 0)] "level" := trivial
  have hwv : fieldDefaulted [("width", PyVal.int 0)] "wave" := trivial
  have hht : fieldDefaulted [("width", PyVal.int 0)] "height" := trivial
  ⟨(generation_defaults_on_missing [("width", PyVal.int 0)]).1 "width" (PyVal.int 900) hwd,
   (generation_defaults_on_missing [("width", PyVal.int 0)]).2.2.2.2.2.1 1 900
     ((generation_defaults_on_missing [("width", PyVal.int 0)]).2.1 hlv)
     ((generation_defaults_on_missing [("width", PyVal.int 0)]).2.2.1 hwd),
   (generation_defaults_on_missing [("width", PyVal.int 0)]).2.2.2.2.2.2 1 900 600
     ((generation_defaults_on_missing [("width", PyVal.int 0)]).2.2.2.1 hwv)
     ((generation_defaults_on_missing [("width", PyVal.int 0)]).2.2.1 hwd)
     ((generation_defaults_on_missing [("width", PyVal.int 0)]).2.2.2.2.1 hht)⟩

/-- C4: an XSS player name is accepted after sanitization and stored escaped —
the submission returns 201, the stored and returned player field is the
HTML-escaped, 32-character-truncated name, and it contains no literal
`<script>` substring. -/
theorem xss_submission_sanitized :
    handle_score_submission
        [("game", PyVal.str "snake"), ("player", PyVal.str "<script>alert(1)</script>"),
         ("score", PyVal.int 100)]
        [] "2026-01-01T00:00:00+00:00"
      = (ScoreResponse.ok xssEntry [xssEntry] 201, [("snake", [xssEntry])]) ∧
    sanitize_string (PyVal.str "<script>alert(1)</script>") MAX_PLAYER_NAME_LENGTH
      = xssEntry.player ∧
    ¬ List.IsInfix "<script>".toList xssEntry.player.toList := by
  refine ⟨by decide, by decide, by decide⟩

theorem topPositions_subset (rs : List Cell) (score : Cell → Int) (k : Nat) :
    ∀ p ∈ ((List.insertionSort scoredDesc (rs.map fun q => (q, score q))).take k).map
      (·.1), p ∈ rs := by
  intro p hp
  obtain ⟨pr, hpr, hfst⟩ := List.mem_map.mp hp
  have h1 : pr ∈ List.insertionSort scoredDesc (rs.map fun q => (q, score q)) :=
    List.take_subset _ _ hpr
  have h2 : pr ∈ rs.map fun q => (q, score q) := (List.mem_insertionSort _).mp h1
  obtain ⟨q, hq, hqe⟩ := List.mem_map.mp h2
  rw [← hfst, ← hqe]
  exact hq

theorem topPositions_ne_nil (rs : List Cell) (score : Cell → Int) (hrs : rs ≠ []) :
    ((List.insertionSort scoredDesc (rs.map fun q => (q, score q))).take
        (max 1 ((List.insertionSort scoredDesc (rs.map fun q => (q, score q))).length / 3))).map
      (·.1) ≠ [] := by
  have hn : 0 < rs.length := List.length_pos.mpr hrs
  have hlen : (List.insertionSort scoredDesc (rs.map fun q => (q, score q))).length
      = rs.length := by
    rw [List.length_insertionSort, List.length_map]
  intro h
  have := congrArg List.length h
  rw [List.length_map, List.length_take, hlen] at this
  simp only [List.length_nil] at this
  omega

/-- C7: Snake food reachability — for a snake of length ≥ 5 with at least one
open cell reachable from the head (the computed `reachable_spaces` list is
non-empty), `next_food` returns a cell outside the snake body that lies in the
flood-fill reachable set computed from the head with the body minus the head
as blocked cells. -/
theorem next_food_reachable (grid : Nat) (snake : List Cell)
    (h5 : 5 ≤ snake.length) (hr : reachableSpaces grid snake ≠ []) :
    next_food grid snake ∉ snake ∧
    next_food grid snake ∈
      _flood_fill (snakeHead grid snake)
        ((_occupied snake).filter (fun c => decide (c ≠ snakeHead grid snake))) grid := by
  have hopen : openSpaces grid (_occupied snake) ≠ [] := by
    intro h
    apply hr
    simp [reachableSpaces, h]
  have hmem : next_food grid snake ∈ reachableSpaces grid snake := by
    simp only [next_food]
    rw [if_neg hopen, if_neg (by omega : ¬ snake.length < 5), if_neg hr]
    exact topPositions_subset (reachableSpaces grid snake) _ _ _
      (PRNG.choice_mem _ _ _ (topPositions_ne_nil (reachableSpaces grid snake) _ hr))
  have h2 := List.mem_filter.mp (show next_food grid snake ∈
    (openSpaces grid (_occupied snake)).filter (fun p => decide (p ∈
      _flood_fill (snakeHead grid snake)
        ((_occupied snake).filter (fun c => decide (c ≠ snakeHead grid snake))) grid))
    from hmem)
  refine ⟨?_, of_decide_eq_true h2.2⟩
  have h3 := List.mem_filter.mp h2.1
  have h4 : next_food grid snake ∉ _occupied snake := of_decide_eq_true h3.2
  intro hc
  exact h4 (List.mem_dedup.mpr hc)

/-- Witness for C7 on a 4×4 grid with a five-segment snake. -/
theorem next_food_reachable_witness :
    next_food 4 [(1, 1), (1, 2), (1, 3), (2, 3), (3, 3)] ∉
      ([(1, 1), (1, 2), (1, 3), (2, 3), (3, 3)] : List Cell) ∧
    next_food 4 [(1, 1), (1, 2), (1, 3), (2, 3), (3, 3)] ∈
      _flood_fill (snakeHead 4 [(1, 1), (1, 2), (1, 3), (2, 3), (3, 3)])
        ((_occupied [(1, 1), (1, 2), (1, 3), (2, 3), (3, 3)]).filter
          (fun c => decide (c ≠ snakeHead 4 [(1, 1), (1, 2), (1, 3), (2, 3), (3, 3)]))) 4 :=
  next_food_reachable 4 [(1, 1), (1, 2), (1, 3), (2, 3), (3, 3)] (by decide) (by decide)
